import Mathlib

/-!
Shallow embedding of `mara_db/shell.py`: shell command generation for running
queries in databases via their command line clients and for copying data
between databases.  The connection descriptor classes (`mara_db/dbs.py`) and
the configuration collaborator (`mara_db/config.py`) are not part of the
sources; they are modelled from the specification.  All builders are pure
string computations; Python truthiness of optional fields is modelled
explicitly.
-/

namespace MaraDb

/-- Modelled from the spec: PostgreSQL connection descriptor (the `dbs` module
with the descriptor value objects is external to the sources).  Fields are
optional connection parameters. -/
structure PostgreSQLDB where
  host : Option String := none
  port : Option Nat := none
  user : Option String := none
  password : Option String := none
  database : Option String := none
deriving DecidableEq

/-- Modelled from the spec: MySQL connection descriptor. -/
structure MysqlDB where
  host : Option String := none
  port : Option Nat := none
  user : Option String := none
  password : Option String := none
  database : Option String := none
  ssl : Bool := false
deriving DecidableEq

/-- Modelled from the spec: SQL Server connection descriptor. -/
structure SQLServerDB where
  host : Option String := none
  user : Option String := none
  password : Option String := none
  database : Option String := none
deriving DecidableEq

/-- Modelled from the spec: SQLite connection descriptor (a database file). -/
structure SQLiteDB where
  file_name : String
deriving DecidableEq

/-- The closed set of descriptor variants (spec section 3). -/
inductive DB where
  | postgreSQL (db : PostgreSQLDB)
  | mysql (db : MysqlDB)
  | sqlServer (db : SQLServerDB)
  | sqlite (db : SQLiteDB)
deriving DecidableEq

/-- Errors of the builders: `unsupportedDatabase` and `unsupportedPair` model
the `NotImplementedError` raised by the unregistered-dispatch base
implementations in `shell.py`; `aliasNotFound` models a failing alias lookup
in the external configuration registry. -/
inductive ShellError where
  | unsupportedDatabase
  | unsupportedPair
  | aliasNotFound
deriving DecidableEq

/-- Python truthiness of an optional string: `None` and the empty string are
falsy (`if db.user` in the source). -/
def pyTruthy : Option String → Bool
  | none => false
  | some s => s ≠ ""

/-- Python truthiness of an optional integer: `None` and `0` are falsy. -/
def pyTruthyNat : Option Nat → Bool
  | none => false
  | some n => n ≠ 0

/-- Python `a or b` for an optional string `a` and default `b`
(`timezone or config.default_timezone()` in the source). -/
def pyOr (a : Option String) (b : String) : String :=
  match a with
  | none => b
  | some s => if s = "" then b else s

/-- Python `s or ''` (`db.database or ''` in the source). -/
def pyOrEmpty (a : Option String) : String :=
  match a with
  | none => ""
  | some s => s

/-- Characters `shlex.quote` considers safe (CPython `_find_unsafe`:
anything matching ASCII `\w` or one of at-sign, percent, plus, equals,
colon, comma, dot, slash, dash needs no quoting). -/
def shlexSafeChar (c : Char) : Bool :=
  c.isAlphanum || c == '_' || c == '@' || c == '%' || c == '+' || c == '=' ||
    c == ':' || c == ',' || c == '.' || c == '/' || c == '-'

/-- `shlex.quote` from the Python standard library: return the string
unchanged when every character is safe, otherwise wrap it in single quotes
with embedded single quotes replaced by the sequence
single-quote double-quote single-quote double-quote single-quote. -/
def shlex_quote (s : String) : String :=
  if s = "" then "\x27\x27"
  else if s.toList.all shlexSafeChar then s
  else "\x27" ++ String.join (s.toList.map fun c =>
    if c == '\x27' then "\x27\x22\x27\x22\x27" else String.singleton c) ++ "\x27"

/-- `query_command` for `dbs.PostgreSQLDB` (shell.py lines 44-54).
`defaultTz` is the process-wide default timezone of the configuration
collaborator, passed explicitly. -/
def query_command_postgresql (defaultTz : String) (db : PostgreSQLDB)
    (timezone : Option String) (echo_queries : Bool) : String :=
  "PGTZ=" ++ pyOr timezone defaultTz ++ " "
  ++ (if pyTruthy db.password then "PGPASSWORD=" ++ pyOrEmpty db.password ++ " " else "")
  ++ "PGOPTIONS=--client-min-messages=warning psql"
  ++ (if pyTruthy db.user then " --username=" ++ pyOrEmpty db.user else "")
  ++ (if pyTruthy db.host then " --host=" ++ pyOrEmpty db.host else "")
  ++ (if pyTruthyNat db.port then " --port=" ++ toString ((db.port).getD 0) else "")
  ++ (if echo_queries then " --echo-all" else " ")
  ++ " --no-psqlrc --set ON_ERROR_STOP=on "
  ++ pyOrEmpty db.database

/-- `query_command` for `dbs.MysqlDB` (shell.py lines 57-65). -/
def query_command_mysql (db : MysqlDB) : String :=
  (if pyTruthy db.password then "MYSQL_PWD=\x27" ++ pyOrEmpty db.password ++ "\x27 " else "")
  ++ "mysql "
  ++ (if pyTruthy db.user then " --user=" ++ pyOrEmpty db.user else "")
  ++ (if pyTruthy db.host then " --host=" ++ pyOrEmpty db.host else "")
  ++ (if pyTruthyNat db.port then " --port=" ++ toString ((db.port).getD 0) else "")
  ++ (if db.ssl then " --ssl" else "")
  ++ (if pyTruthy db.database then " " ++ pyOrEmpty db.database else "")

/-- `query_command` for `dbs.SQLServerDB` (shell.py lines 68-81): a sed stage
double-escaping literal dollar characters, two stages guaranteeing statement
terminators, then the sqsh invocation. -/
def query_command_sqlserver (db : SQLServerDB) : String :=
  "sed \x27s/\\\\\\\\$/\\$/g;s/\\$/\\\\\\\\$/g\x27 | "
  ++ "(cat && echo \x27;\x27) \\\n  | "
  ++ "(cat && echo \x27;\n\\go\x27) \\\n  | "
  ++ "sqsh "
  ++ (if pyTruthy db.user then " -U " ++ pyOrEmpty db.user else "")
  ++ (if pyTruthy db.password then " -P " ++ pyOrEmpty db.password else "")
  ++ (if pyTruthy db.host then " -S " ++ pyOrEmpty db.host else "")
  ++ (if pyTruthy db.database then " -D " ++ pyOrEmpty db.database else "")

/-- `query_command` for `dbs.SQLiteDB` (shell.py lines 85-90): test file
existence first, diagnose a missing file on standard error, pipe into
sqlite3 with bail-on-error; the file path is shell-escaped. -/
def query_command_sqlite (db : SQLiteDB) : String :=
  "(test -f " ++ shlex_quote db.file_name ++ " && cat || >&2 echo "
  ++ shlex_quote db.file_name ++ " not found) \\\n"
  ++ "  | sqlite3 -bail " ++ shlex_quote db.file_name

/-- `query_command` (shell.py lines 14-90): dispatch on the descriptor
variant. -/
def query_command (defaultTz : String) (db : DB) (timezone : Option String)
    (echo_queries : Bool) : String :=
  match db with
  | .postgreSQL d => query_command_postgresql defaultTz d timezone echo_queries
  | .mysql d => query_command_mysql d
  | .sqlServer d => query_command_sqlserver d
  | .sqlite d => query_command_sqlite d

/-- `copy_to_stdout_command` (shell.py lines 96-138): append client-specific
flags for delimiter-separated output to the query command. -/
def copy_to_stdout_command (defaultTz : String) (db : DB) : String :=
  match db with
  | .postgreSQL d =>
      query_command defaultTz (.postgreSQL d) none false
      ++ " --tuples-only --no-align --field-separator=\x27\t\x27 \\\n"
      ++ "  | sed \x27/^$/d\x27"
  | .mysql d => query_command defaultTz (.mysql d) none true ++ " --skip-column-names"
  | .sqlServer d => query_command defaultTz (.sqlServer d) none true ++ " -m csv"
  | .sqlite d =>
      query_command defaultTz (.sqlite d) none true
      ++ " -noheader -separator \x27\t\x27 -quote"

/-- The SQL statement built inside `copy_from_stdin_command` for
`dbs.PostgreSQLDB` (shell.py lines 188-198): a COPY-FROM-STDIN statement with
conditionally appended CSV, HEADER, DELIMITER, NULL and QUOTE clauses.
`delimiter_char`, `null_value_string` and `quote_char` are compared against
`None` in the source (not Python truthiness), so an empty string still emits
its clause. -/
def copy_from_stdin_sql (target_table : String) (csv_format skip_header : Bool)
    (delimiter_char quote_char null_value_string : Option String) : String :=
  "COPY " ++ target_table ++ " FROM STDIN WITH"
  ++ (if csv_format then " CSV" else "")
  ++ (if skip_header then " HEADER" else "")
  ++ (match delimiter_char with
      | some c => " DELIMITER AS \x27" ++ c ++ "\x27"
      | none => "")
  ++ (match null_value_string with
      | some n => " NULL AS \x27" ++ n ++ "\x27"
      | none => "")
  ++ (match quote_char with
      | some q => " QUOTE AS \x27" ++ q ++ "\x27"
      | none => "")

/-- `copy_from_stdin_command` for `dbs.PostgreSQLDB` (shell.py lines 186-201):
pass the COPY statement to psql via its command flag. -/
def copy_from_stdin_command_postgresql (defaultTz : String) (db : PostgreSQLDB)
    (target_table : String) (csv_format skip_header : Bool)
    (delimiter_char quote_char null_value_string : Option String)
    (timezone : Option String) : String :=
  query_command defaultTz (.postgreSQL db) timezone true ++ " \\\n      --command=\x22"
  ++ copy_from_stdin_sql target_table csv_format skip_header
       delimiter_char quote_char null_value_string
  ++ "\x22"

/-- `copy_from_stdin_command` (shell.py lines 145-201): only PostgreSQL is
registered; every other variant falls through to the base implementation,
which raises. -/
def copy_from_stdin_command (defaultTz : String) (db : DB) (target_table : String)
    (csv_format skip_header : Bool)
    (delimiter_char quote_char null_value_string : Option String)
    (timezone : Option String) : Except ShellError String :=
  match db with
  | .postgreSQL d =>
      .ok (copy_from_stdin_command_postgresql defaultTz d target_table
        csv_format skip_header delimiter_char quote_char null_value_string timezone)
  | _ => .error .unsupportedDatabase

/-- `copy_command` on resolved descriptors (shell.py lines 207-269): the
registered (source, target) combinations are exactly the four with a
PostgreSQL target; each chains stdout-copy of the source into stdin-load of
the target with pairing-specific format flags.  Every other combination
falls through to the base implementation, which raises. -/
def copy_command (defaultTz : String) (source_db target_db : DB)
    (target_table : String) (timezone : Option String) : Except ShellError String :=
  match source_db, target_db with
  | .postgreSQL s, .postgreSQL t =>
      .ok (copy_to_stdout_command defaultTz (.postgreSQL s) ++ " \\\n  | "
        ++ copy_from_stdin_command_postgresql defaultTz t target_table
             false false none none (some "") timezone)
  | .mysql s, .postgreSQL t =>
      .ok (copy_to_stdout_command defaultTz (.mysql s) ++ " \\\n  | "
        ++ copy_from_stdin_command_postgresql defaultTz t target_table
             false false none none (some "NULL") timezone)
  | .sqlServer s, .postgreSQL t =>
      .ok (copy_to_stdout_command defaultTz (.sqlServer s) ++ " \\\n  | "
        ++ copy_from_stdin_command_postgresql defaultTz t target_table
             true true none none none timezone)
  | .sqlite s, .postgreSQL t =>
      .ok (copy_to_stdout_command defaultTz (.sqlite s) ++ " \\\n  | "
        ++ copy_from_stdin_command_postgresql defaultTz t target_table
             true false none (some "\x27\x27") (some "NULL") timezone)
  | _, _ => .error .unsupportedPair

/-- An argument to `copy_command` as the Python callers may pass it: either an
alias string (resolved through the external configuration registry) or an
already resolved descriptor. -/
inductive DbRef where
  | alias (a : String)
  | db (d : DB)
deriving DecidableEq

/-- Alias lookup against a registry; a missing alias raises (spec:
`AliasNotFound` propagates unchanged from the configuration collaborator). -/
def resolve (reg : String → Option DB) (a : String) : Except ShellError DB :=
  match reg a with
  | some d => .ok d
  | none => .error .aliasNotFound

/-- `copy_command` as dispatched over alias-or-descriptor arguments
(shell.py lines 235-242): the registered alias signatures are
(alias, alias) and (descriptor, alias).  A call with an alias source and a
resolved target descriptor matches no registration and falls through to the
base implementation, which raises. -/
def copy_command_ref (reg : String → Option DB) (defaultTz : String)
    (source_db target_db : DbRef) (target_table : String)
    (timezone : Option String) : Except ShellError String :=
  match source_db, target_db with
  | .alias a, .alias b => do
      let s ← resolve reg a
      let t ← resolve reg b
      copy_command defaultTz s t target_table timezone
  | .db s, .alias b => do
      let t ← resolve reg b
      copy_command defaultTz s t target_table timezone
  | .db s, .db t => copy_command defaultTz s t target_table timezone
  | .alias _, .db _ => .error .unsupportedPair

/-- Concatenation of COPY clause texts, each already carrying its leading
separating space. -/
def joinClauses : List String → String
  | [] => ""
  | c :: cs => c ++ joinClauses cs

/-- Specification-side reformulation of the COPY options: the list of emitted
clauses, in the fixed order CSV, HEADER, DELIMITER, NULL, QUOTE, each present
exactly when its option is true respectively non-null. -/
def copy_clause_list (csv_format skip_header : Bool)
    (delimiter_char null_value_string quote_char : Option String) : List String :=
  (if csv_format then [" CSV"] else [])
  ++ (if skip_header then [" HEADER"] else [])
  ++ (match delimiter_char with
      | some c => [" DELIMITER AS \x27" ++ c ++ "\x27"]
      | none => [])
  ++ (match null_value_string with
      | some n => [" NULL AS \x27" ++ n ++ "\x27"]
      | none => [])
  ++ (match quote_char with
      | some q => [" QUOTE AS \x27" ++ q ++ "\x27"]
      | none => [])

/-- Claim C1 (evaluation at the failing input): for the MySQL descriptor with
host localhost and database test, the generated command does contain the
host flag and does end with the database name, but it does not contain
the substring for the utf8mb4 default character set — contradicting the
docstring example in shell.py (lines 33-34) and the spec. -/
theorem query_command_mysql_missing_charset_eval :
    ¬ ("--default-character-set=utf8mb4".toList <:+: (query_command "Europe/Berlin"
          (.mysql { host := some "localhost", database := some "test" }) none true).toList)
      ∧ "--host=localhost".toList <:+: (query_command "Europe/Berlin"
          (.mysql { host := some "localhost", database := some "test" }) none true).toList
      ∧ "test".toList <:+ (query_command "Europe/Berlin"
          (.mysql { host := some "localhost", database := some "test" }) none true).toList := by
  refine ⟨by decide, by decide, by decide⟩

set_option maxRecDepth 8192 in
/-- Claim C3: for a PostgreSQL descriptor, the stdin-load command with
csv_format, skip_header, delimiter comma, empty null string and double-quote
quote char embeds the statement
COPY foo FROM STDIN WITH CSV HEADER DELIMITER AS comma NULL AS empty QUOTE AS
double-quote; and in general the emitted SQL is the COPY prefix followed by
the clause list in the fixed order CSV, HEADER, DELIMITER, NULL, QUOTE, each
clause present exactly when its option is set. -/
theorem copy_from_stdin_clause_order :
    (let cmd := copy_from_stdin_command_postgresql "Europe/Berlin"
        { host := some "localhost", database := some "test" } "foo"
        true true (some ",") (some "\x22") (some "") none
     ("COPY foo FROM STDIN WITH CSV HEADER DELIMITER AS \x27,\x27 NULL AS \x27\x27 QUOTE AS \x27\x22\x27").toList
       <:+: cmd.toList)
    ∧ ∀ (target_table : String) (csv_format skip_header : Bool)
        (delimiter_char quote_char null_value_string : Option String),
        copy_from_stdin_sql target_table csv_format skip_header
            delimiter_char quote_char null_value_string
          = "COPY " ++ target_table ++ " FROM STDIN WITH"
            ++ joinClauses (copy_clause_list csv_format skip_header
                 delimiter_char null_value_string quote_char) := by
  constructor
  · decide
  · intro target_table csv_format skip_header delimiter_char quote_char null_value_string
    cases csv_format <;> cases skip_header <;> cases delimiter_char <;>
      cases quote_char <;> cases null_value_string <;>
      exact String.ext (by
        simp [copy_from_stdin_sql, copy_clause_list, joinClauses,
          String.data_append, List.append_assoc])

/-- Claim C4: for every SQLServer source and PostgreSQL target, copy_command
is exactly the stdout-copy of the source piped into the stdin-load of the
target with csv_format and skip_header enabled and no other format options,
regardless of the other arguments. -/
theorem copy_command_sqlserver_postgresql_pipeline :
    ∀ (defaultTz : String) (s : SQLServerDB) (t : PostgreSQLDB)
      (target_table : String) (timezone : Option String),
      copy_command defaultTz (.sqlServer s) (.postgreSQL t) target_table timezone
        = (copy_from_stdin_command defaultTz (.postgreSQL t) target_table
            true true none none none timezone).map
            (fun load => copy_to_stdout_command defaultTz (.sqlServer s)
              ++ " \\\n  | " ++ load) :=
  fun _ _ _ _ _ => rfl

/-- Claim C5: stdin-load fails with the unsupported-database error for every
MySQL, SQLServer and SQLite descriptor, and yields a command exactly for
PostgreSQL descriptors. -/
theorem copy_from_stdin_only_postgresql :
    ∀ (defaultTz target_table : String) (csv_format skip_header : Bool)
      (delimiter_char quote_char null_value_string timezone : Option String),
      (∀ d : MysqlDB, copy_from_stdin_command defaultTz (.mysql d) target_table
          csv_format skip_header delimiter_char quote_char null_value_string timezone
        = .error .unsupportedDatabase)
      ∧ (∀ d : SQLServerDB, copy_from_stdin_command defaultTz (.sqlServer d) target_table
          csv_format skip_header delimiter_char quote_char null_value_string timezone
        = .error .unsupportedDatabase)
      ∧ (∀ d : SQLiteDB, copy_from_stdin_command defaultTz (.sqlite d) target_table
          csv_format skip_header delimiter_char quote_char null_value_string timezone
        = .error .unsupportedDatabase)
      ∧ (∀ d : PostgreSQLDB, ∃ cmd, copy_from_stdin_command defaultTz (.postgreSQL d)
          target_table csv_format skip_header delimiter_char quote_char
          null_value_string timezone = .ok cmd) :=
  fun _ _ _ _ _ _ _ _ =>
    ⟨fun _ => rfl, fun _ => rfl, fun _ => rfl, fun _ => ⟨_, rfl⟩⟩

/-- Claim C6: for every source descriptor, copy_command yields a command
exactly when the target is a PostgreSQL descriptor (the four registered
pairs) and fails with the unsupported-pair error for every MySQL, SQLServer
or SQLite target, returning no string. -/
theorem copy_command_registered_pairs_postgresql_targets :
    ∀ (defaultTz target_table : String) (timezone : Option String) (s : DB),
      (∀ d : MysqlDB, copy_command defaultTz s (.mysql d) target_table timezone
        = .error .unsupportedPair)
      ∧ (∀ d : SQLServerDB, copy_command defaultTz s (.sqlServer d) target_table timezone
        = .error .unsupportedPair)
      ∧ (∀ d : SQLiteDB, copy_command defaultTz s (.sqlite d) target_table timezone
        = .error .unsupportedPair)
      ∧ (∀ t : PostgreSQLDB, ∃ cmd,
          copy_command defaultTz s (.postgreSQL t) target_table timezone = .ok cmd) := by
  intro defaultTz target_table timezone s
  cases s <;>
    exact ⟨fun _ => rfl, fun _ => rfl, fun _ => rfl, fun _ => ⟨_, rfl⟩⟩

/-- Claim C8: for every SQLite descriptor the generated command first tests
existence of the shell-escaped database file, emits a not-found diagnostic to
standard error when it is absent instead of reading the file, and pipes into
sqlite3 with the bail flag and the same shell-escaped file path. -/
theorem query_command_sqlite_existence_check :
    ∀ (defaultTz : String) (d : SQLiteDB) (timezone : Option String)
      (echo_queries : Bool),
      query_command defaultTz (.sqlite d) timezone echo_queries
        = "(test -f " ++ shlex_quote d.file_name ++ " && cat || >&2 echo "
          ++ shlex_quote d.file_name ++ " not found) \\\n"
          ++ "  | sqlite3 -bail " ++ shlex_quote d.file_name :=
  fun _ _ _ _ => rfl

/-- Claim C9: command generation is deterministic and depends only on the
arguments (with the process-wide default timezone held fixed as an explicit
argument): two calls of query_command with identical arguments return
identical strings. -/
theorem query_command_deterministic :
    ∀ (defaultTz₁ defaultTz₂ : String) (db₁ db₂ : DB)
      (tz₁ tz₂ : Option String) (echo₁ echo₂ : Bool),
      defaultTz₁ = defaultTz₂ → db₁ = db₂ → tz₁ = tz₂ → echo₁ = echo₂ →
      query_command defaultTz₁ db₁ tz₁ echo₁ = query_command defaultTz₂ db₂ tz₂ echo₂ := by
  intro _ _ _ _ _ _ _ _ h₁ h₂ h₃ h₄
  rw [h₁, h₂, h₃, h₄]

/-- Witness for claim C9 at a concrete descriptor. -/
theorem query_command_deterministic_witness :
    query_command "Europe/Berlin" (.postgreSQL { host := some "localhost" }) none true
      = query_command "Europe/Berlin" (.postgreSQL { host := some "localhost" }) none true :=
  query_command_deterministic "Europe/Berlin" "Europe/Berlin" _ _ none none true true
    rfl rfl rfl rfl

/-- Claim C10: for a PostgreSQL descriptor with all formatting options at
their defaults, the stdin-load command embeds the statement
COPY table FROM STDIN WITH, ending in the bare keyword WITH with no clause
after it (the closing double quote follows immediately). -/
theorem copy_from_stdin_defaults_bare_with :
    ∀ (defaultTz : String) (d : PostgreSQLDB) (target_table : String)
      (timezone : Option String),
      copy_from_stdin_command defaultTz (.postgreSQL d) target_table
          false false none none none timezone
        = .ok (query_command defaultTz (.postgreSQL d) timezone true
            ++ " \\\n      --command=\x22"
            ++ ("COPY " ++ target_table ++ " FROM STDIN WITH") ++ "\x22") := by
  intro defaultTz d target_table timezone
  simp [copy_from_stdin_command, copy_from_stdin_command_postgresql, copy_from_stdin_sql]

/-- Claim C2 (counterexample): with a registry resolving the alias src to a
PostgreSQL source descriptor, copy_command called with that alias as source
and an already-resolved target descriptor matches no registered signature and
raises, so it differs from the call on the resolved descriptors. -/
theorem copy_command_alias_source_resolved_target_ce :
    copy_command_ref (fun x => if x = "src" then some (.postgreSQL {}) else none)
        "Europe/Berlin" (.alias "src") (.db (.postgreSQL { host := some "h" })) "tbl" none
      ≠ copy_command_ref (fun x => if x = "src" then some (.postgreSQL {}) else none)
        "Europe/Berlin" (.db (.postgreSQL {})) (.db (.postgreSQL { host := some "h" })) "tbl" none := by
  intro h
  exact Except.noConfusion h

/-- Claim C2 (amended): copy_command accepts an alias in place of the target
argument, and in place of the source argument when the target is also given
as an alias; in both cases the result equals the call on the resolved
descriptors.  An alias source together with an already-resolved target
descriptor matches no registered signature and raises instead. -/
theorem copy_command_alias_resolution :
    ∀ (reg : String → Option DB) (defaultTz : String) (S T : DB) (a b : String)
      (target_table : String) (timezone : Option String),
      reg a = some S → reg b = some T →
      copy_command_ref reg defaultTz (.alias a) (.alias b) target_table timezone
          = copy_command defaultTz S T target_table timezone
        ∧ copy_command_ref reg defaultTz (.db S) (.alias b) target_table timezone
          = copy_command defaultTz S T target_table timezone := by
  intro reg defaultTz S T a b target_table timezone ha hb
  constructor <;> simp only [copy_command_ref, resolve, ha, hb] <;> rfl

/-- Witness for the amended claim C2 at a concrete registry and concrete
descriptors. -/
theorem copy_command_alias_resolution_witness :
    copy_command_ref
        (fun x => if x = "s" then some (.postgreSQL {})
          else if x = "t" then some (.postgreSQL { host := some "h" }) else none)
        "Europe/Berlin" (.alias "s") (.alias "t") "tbl" none
      = copy_command "Europe/Berlin" (.postgreSQL {})
          (.postgreSQL { host := some "h" }) "tbl" none
    ∧ copy_command_ref
        (fun x => if x = "s" then some (.postgreSQL {})
          else if x = "t" then some (.postgreSQL { host := some "h" }) else none)
        "Europe/Berlin" (.db (.postgreSQL {})) (.alias "t") "tbl" none
      = copy_command "Europe/Berlin" (.postgreSQL {})
          (.postgreSQL { host := some "h" }) "tbl" none :=
  copy_command_alias_resolution _ "Europe/Berlin" _ _ "s" "t" "tbl" none rfl rfl

/-- Equations used to reduce the truthiness tests on removed fields. -/
@[simp] theorem pyTruthy_none : pyTruthy none = false := rfl

/-- Equation used to reduce the truthiness test on a removed port field. -/
@[simp] theorem pyTruthyNat_none : pyTruthyNat none = false := rfl

set_option maxRecDepth 8192 in
/-- Claim C7: for the PostgreSQL descriptor with host localhost and database
test and no user or password, the generated command does not contain the
username flag, contains the host flag, and ends with the database name; and
in general an absent (or empty, hence falsy) user, host, port or password
field yields exactly the command of the descriptor with that field removed —
the flag is omitted entirely, never emitted empty. -/
theorem query_command_postgresql_absent_flags :
    (let cmd := query_command "Europe/Berlin"
        (.postgreSQL { host := some "localhost", database := some "test" }) none true
     ¬ ("--username".toList <:+: cmd.toList)
       ∧ "--host=localhost".toList <:+: cmd.toList
       ∧ "test".toList <:+ cmd.toList)
    ∧ ∀ (defaultTz : String) (db : PostgreSQLDB) (timezone : Option String)
        (echo_queries : Bool),
        (pyTruthy db.user = false →
          query_command defaultTz (.postgreSQL { db with user := none }) timezone echo_queries
            = query_command defaultTz (.postgreSQL db) timezone echo_queries)
        ∧ (pyTruthy db.host = false →
          query_command defaultTz (.postgreSQL { db with host := none }) timezone echo_queries
            = query_command defaultTz (.postgreSQL db) timezone echo_queries)
        ∧ (pyTruthyNat db.port = false →
          query_command defaultTz (.postgreSQL { db with port := none }) timezone echo_queries
            = query_command defaultTz (.postgreSQL db) timezone echo_queries)
        ∧ (pyTruthy db.password = false →
          query_command defaultTz (.postgreSQL { db with password := none }) timezone echo_queries
            = query_command defaultTz (.postgreSQL db) timezone echo_queries) := by
  refine ⟨⟨by decide, by decide, by decide⟩, ?_⟩
  intro defaultTz db timezone echo_queries
  refine ⟨fun h => ?_, fun h => ?_, fun h => ?_, fun h => ?_⟩ <;>
    simp [query_command, query_command_postgresql, h]

/-- Witness for claim C7: an empty-string user field is falsy and produces the
same command as an absent user field. -/
theorem query_command_postgresql_absent_flags_witness :
    pyTruthy (some "") = false
    ∧ query_command "Europe/Berlin" (.postgreSQL { user := none }) none true
        = query_command "Europe/Berlin" (.postgreSQL { user := some "" }) none true :=
  ⟨by decide,
    (query_command_postgresql_absent_flags.2 "Europe/Berlin" { user := some "" } none true).1
      (by decide)⟩

end MaraDb
